import Mathlib

/-!
Shallow embedding of the 6502 CPU core from `src/cpu.rs` and the opcode
table from `src/opcodes.rs` of the nes_emulator repository.

Machine integers are modelled as `Nat`: `u8` values are kept below 256 by
taking `% 256` at the points where the source performs a cast or a
wrapping operation, and `u16` values below 65536 likewise.  The CPU memory
is an array of `0xffff` bytes in the source (`memory: [u8; 0xffff]`), so a
read or write at an address outside `[0, 0xfffe]` panics; panics are
modelled by `Option`: `none` is a crash.
-/

set_option maxHeartbeats 1600000

namespace NesEmu

/-- The addressing-mode enumeration from `src/cpu.rs` (`enum AddressingMode`). -/
inductive AddressingMode where
  | Immediate
  | ZeroPage
  | ZeroPage_X
  | ZeroPage_Y
  | Absolute
  | Absolute_X
  | Absolute_Y
  | Indirect_X
  | Indirect_Y
  | NoneAddressing
deriving DecidableEq, Repr

/-- Opcode descriptor, from `struct OpCode` in `src/opcodes.rs`. -/
structure OpCode where
  code : Nat
  mnemonic : String
  len : Nat
  cycles : Nat
  mode : AddressingMode
deriving DecidableEq

/-- CPU state, from `struct CPU` in `src/cpu.rs`.  The memory array
`[u8; 0xffff]` is modelled as a function out of `Nat`; only indices below
`MEM_SIZE = 0xffff` are in bounds, and cells hold bytes (reads reduce the
stored value `% 256`, matching the `u8` cell type). -/
structure CPU where
  register_a : Nat
  register_x : Nat
  register_y : Nat
  status : Nat
  program_counter : Nat
  stack_pointer : Nat
  memory : Nat → Nat

/-- Length of the source's memory array: `memory: [u8; 0xffff]` — one byte
short of the full 64 KiB address space. -/
def MEM_SIZE : Nat := 0xffff

/-- `const STACK_RESET: u8 = 0xfd` from `src/cpu.rs`. -/
def STACK_RESET : Nat := 0xfd

/-- `const STACK_END: u16 = 0x0100` from `src/cpu.rs`. -/
def STACK_END : Nat := 0x0100

/-- Modelled from the spec: bit 0 of the status register is CARRY (§3 of the
spec; the module `cpu_flags` is not in the snapshot). -/
def CARRY : Nat := 0x01

/-- Modelled from the spec: bit 1 of the status register is ZERO. -/
def ZERO : Nat := 0x02

/-- Modelled from the spec: bit 2 of the status register is
INTERRUPT_DISABLE. -/
def INTERRUPT_DISABLE : Nat := 0x04

/-- Modelled from the spec: bit 3 of the status register is DECIMAL_MODE. -/
def DECIMAL_MODE : Nat := 0x08

/-- Modelled from the spec: bit 4 of the status register is BREAK. -/
def BREAK : Nat := 0x10

/-- Modelled from the spec: bit 6 of the status register is OVERFLOW. -/
def OVERFLOW : Nat := 0x40

/-- Modelled from the spec: bit 7 of the status register is NEGATIVE
(spelled `NEGATIV` in the source's uses of `CpuFlags`). -/
def NEGATIV : Nat := 0x80

/-- Modelled from the spec: `contains(flag)` on the packed status byte —
bitflags `contains` tests that every bit of the flag is present. -/
def containsFlag (status f : Nat) : Bool := status &&& f == f

/-- Modelled from the spec: `insert(flag)` sets the flag's bits. -/
def insertFlag (status f : Nat) : Nat := status ||| f

/-- Modelled from the spec: `remove(flag)` clears the flag's bits within
the packed byte. -/
def removeFlag (status f : Nat) : Nat := status &&& (0xff ^^^ f)

/-- Modelled from the spec: `set(flag, b)` inserts or removes. -/
def setFlag (status f : Nat) (b : Bool) : Nat :=
  if b then insertFlag status f else removeFlag status f

/-- Modelled from the spec: `from_bits_truncate` keeps the byte's worth of
defined flag bits (§3 defines bits 0–7). -/
def from_bits_truncate (v : Nat) : Nat := v % 256

/-- `Mem::mem_read` for `CPU`: `self.memory[address as usize]`; an address
at or above the array length `0xffff` panics (`none`). -/
def mem_read (s : CPU) (addr : Nat) : Option Nat :=
  if addr < MEM_SIZE then some (s.memory addr % 256) else none

/-- `Mem::mem_write` for `CPU`: `self.memory[address as usize] = value`. -/
def mem_write (s : CPU) (addr v : Nat) : Option CPU :=
  if addr < MEM_SIZE then
    some { s with memory := fun a => if a = addr then v % 256 else s.memory a }
  else none

/-- `mem_read_u16`: little-endian pair of byte reads. -/
def mem_read_u16 (s : CPU) (pos : Nat) : Option Nat := do
  let lo ← mem_read s pos
  let hi ← mem_read s (pos + 1)
  pure ((hi <<< 8) ||| lo)

/-- `mem_write_u16`: write low byte at `pos`, high byte at `pos + 1`. -/
def mem_write_u16 (s : CPU) (pos v : Nat) : Option CPU := do
  let s1 ← mem_write s pos (v % 256)
  mem_write s1 (pos + 1) ((v >>> 8) % 256)

/-- `CPU::load`: copy the program to `0x8000..0x8000+len` (panics when the
slice end exceeds the array length `0xffff`), then write the reset vector
`0x8000` at `0xFFFC`. -/
def load (s : CPU) (program : List Nat) : Option CPU :=
  if 0x8000 + program.length ≤ MEM_SIZE then
    let s1 : CPU := { s with memory := fun a =>
      (if 0x8000 ≤ a ∧ a < 0x8000 + program.length then program.getD (a - 0x8000) 0 % 256
       else s.memory a) }
    mem_write_u16 s1 0xFFFC 0x8000
  else none

/-- `CPU::reset`: clear A, X, Y, reload the status byte, fetch PC from the
reset vector, restore SP. -/
def reset (s : CPU) : Option CPU := do
  let pc ← mem_read_u16 s 0xFFFC
  pure { s with
    register_a := 0,
    register_x := 0,
    register_y := 0,
    status := from_bits_truncate 0b100100,
    program_counter := pc,
    stack_pointer := STACK_RESET }

/-- `CPU::stack_push`: write at `STACK_END + SP`, then decrement SP with
8-bit wrap (`wrapping_sub(1)` is `+ 255 mod 256` on a byte). -/
def stack_push (s : CPU) (v : Nat) : Option CPU := do
  let s1 ← mem_write s (STACK_END + s.stack_pointer) v
  pure { s1 with stack_pointer := (s1.stack_pointer + 255) % 256 }

/-- `CPU::stack_pop`: increment SP with 8-bit wrap, then read at
`STACK_END + SP`. -/
def stack_pop (s : CPU) : Option (Nat × CPU) := do
  let sp1 := (s.stack_pointer + 1) % 256
  let v ← mem_read s (STACK_END + sp1)
  pure (v, { s with stack_pointer := sp1 })

/-- `CPU::stack_push_u16`: push high byte, then low byte. -/
def stack_push_u16 (s : CPU) (v : Nat) : Option CPU := do
  let s1 ← stack_push s ((v >>> 8) % 256)
  stack_push s1 (v % 256)

/-- `CPU::stack_pop_u16`: pop low byte, then high byte. -/
def stack_pop_u16 (s : CPU) : Option (Nat × CPU) := do
  let (lo, s1) ← stack_pop s
  let (hi, s2) ← stack_pop s1
  pure ((hi <<< 8) ||| lo, s2)

/-- `CPU::get_operand_address` from `src/cpu.rs`; `NoneAddressing` panics
("mode is not supported"), modelled as `none`. -/
def get_operand_address (s : CPU) (mode : AddressingMode) : Option Nat :=
  match mode with
  | .Immediate => some s.program_counter
  | .ZeroPage => mem_read s s.program_counter
  | .Absolute => mem_read_u16 s s.program_counter
  | .ZeroPage_X => do
      let pos ← mem_read s s.program_counter
      pure ((pos + s.register_x) % 256)
  | .ZeroPage_Y => do
      let pos ← mem_read s s.program_counter
      pure ((pos + s.register_y) % 256)
  | .Absolute_X => do
      let base ← mem_read_u16 s s.program_counter
      pure ((base + s.register_x) % 65536)
  | .Absolute_Y => do
      let base ← mem_read_u16 s s.program_counter
      pure ((base + s.register_y) % 65536)
  | .Indirect_X => do
      let base ← mem_read s s.program_counter
      let ptr := (base + s.register_x) % 256
      let lo ← mem_read s ptr
      let hi ← mem_read s ((ptr + 1) % 256)
      pure ((hi <<< 8) ||| lo)
  | .Indirect_Y => do
      let base ← mem_read s s.program_counter
      let lo ← mem_read s base
      let hi ← mem_read s ((base + 1) % 256)
      let deref_base := (hi <<< 8) ||| lo
      pure ((deref_base + s.register_y) % 65536)
  | .NoneAddressing => none

/-- `CPU::update_zero_and_negative_flags`. -/
def update_zero_and_negative_flags (s : CPU) (result : Nat) : CPU :=
  let st1 := if result = 0 then insertFlag s.status ZERO else removeFlag s.status ZERO
  let st2 := if result &&& 0b10000000 ≠ 0 then insertFlag st1 NEGATIV else removeFlag st1 NEGATIV
  { s with status := st2 }

/-- `CPU::set_register_a`. -/
def set_register_a (s : CPU) (v : Nat) : CPU :=
  update_zero_and_negative_flags { s with register_a := v } v

/-- `CPU::set_register_x`. -/
def set_register_x (s : CPU) (v : Nat) : CPU :=
  update_zero_and_negative_flags { s with register_x := v } v

/-- `CPU::set_register_y`. -/
def set_register_y (s : CPU) (v : Nat) : CPU :=
  update_zero_and_negative_flags { s with register_y := v } v

/-- `CPU::lda`. -/
def lda (s : CPU) (mode : AddressingMode) : Option CPU := do
  let addr ← get_operand_address s mode
  let v ← mem_read s addr
  pure (set_register_a s v)

/-- `CPU::ldx`. -/
def ldx (s : CPU) (mode : AddressingMode) : Option CPU := do
  let addr ← get_operand_address s mode
  let v ← mem_read s addr
  pure (set_register_x s v)

/-- `CPU::ldy`. -/
def ldy (s : CPU) (mode : AddressingMode) : Option CPU := do
  let addr ← get_operand_address s mode
  let v ← mem_read s addr
  pure (set_register_y s v)

/-- `CPU::tax`. -/
def tax (s : CPU) : CPU := set_register_x s s.register_a

/-- `CPU::bcc`: branch when CARRY clear; a taken branch resolves the
operand address with the opcode's mode and assigns it to PC. -/
def bcc (s : CPU) (mode : AddressingMode) : Option CPU :=
  if containsFlag s.status CARRY then some s
  else do
    let addr ← get_operand_address s mode
    pure { s with program_counter := addr }

/-- `CPU::bcs`: branch when CARRY set. -/
def bcs (s : CPU) (mode : AddressingMode) : Option CPU :=
  if containsFlag s.status CARRY then do
    let addr ← get_operand_address s mode
    pure { s with program_counter := addr }
  else some s

/-- `CPU::beq`: branch when ZERO set. -/
def beq (s : CPU) (mode : AddressingMode) : Option CPU :=
  if containsFlag s.status ZERO then do
    let addr ← get_operand_address s mode
    pure { s with program_counter := addr }
  else some s

/-- `CPU::bne`: branch when ZERO clear. -/
def bne (s : CPU) (mode : AddressingMode) : Option CPU :=
  if containsFlag s.status ZERO then some s
  else do
    let addr ← get_operand_address s mode
    pure { s with program_counter := addr }

/-- `CPU::bit`. -/
def bit (s : CPU) (mode : AddressingMode) : Option CPU := do
  let addr ← get_operand_address s mode
  let data ← mem_read s addr
  let andv := s.register_a &&& data
  let st1 := if andv = 0 then insertFlag s.status ZERO else removeFlag s.status ZERO
  let st2 := setFlag st1 NEGATIV (data &&& 0b10000000 > 0)
  let st3 := setFlag st2 OVERFLOW (data &&& 0b01000000 > 0)
  pure { s with status := st3 }

/-- `CPU::bmi`: branch when NEGATIV set. -/
def bmi (s : CPU) (mode : AddressingMode) : Option CPU :=
  if containsFlag s.status NEGATIV then do
    let addr ← get_operand_address s mode
    pure { s with program_counter := addr }
  else some s

/-- `CPU::bpl`: branch when NEGATIV clear. -/
def bpl (s : CPU) (mode : AddressingMode) : Option CPU :=
  if containsFlag s.status NEGATIV then some s
  else do
    let addr ← get_operand_address s mode
    pure { s with program_counter := addr }

/-- `CPU::bvc`: branch when OVERFLOW clear. -/
def bvc (s : CPU) (mode : AddressingMode) : Option CPU :=
  if containsFlag s.status OVERFLOW then some s
  else do
    let addr ← get_operand_address s mode
    pure { s with program_counter := addr }

/-- `CPU::bvs`: branch when OVERFLOW set. -/
def bvs (s : CPU) (mode : AddressingMode) : Option CPU :=
  if containsFlag s.status OVERFLOW then do
    let addr ← get_operand_address s mode
    pure { s with program_counter := addr }
  else some s

/-- `CPU::compare`: shared CMP/CPX/CPY body.  `wrapping_sub` on bytes is
`(r + 256 - m) % 256` for `m < 256`. -/
def compare (s : CPU) (mode : AddressingMode) (compare_with : Nat) : Option CPU := do
  let addr ← get_operand_address s mode
  let data ← mem_read s addr
  let result := (compare_with + 256 - data) % 256
  let s1 : CPU :=
    if data ≤ compare_with then { s with status := insertFlag s.status CARRY }
    else { s with status := removeFlag s.status CARRY }
  pure (update_zero_and_negative_flags s1 result)

/-- `CPU::dec`. -/
def dec (s : CPU) (mode : AddressingMode) : Option CPU := do
  let addr ← get_operand_address s mode
  let data ← mem_read s addr
  let result := (data + 255) % 256
  let s1 ← mem_write s addr result
  pure (update_zero_and_negative_flags s1 result)

/-- `CPU::decx`. -/
def decx (s : CPU) : CPU := set_register_x s ((s.register_x + 255) % 256)

/-- `CPU::decy`. -/
def decy (s : CPU) : CPU := set_register_y s ((s.register_y + 255) % 256)

/-- `CPU::inc`. -/
def inc (s : CPU) (mode : AddressingMode) : Option CPU := do
  let addr ← get_operand_address s mode
  let data ← mem_read s addr
  let result := (data + 1) % 256
  let s1 ← mem_write s addr result
  pure (update_zero_and_negative_flags s1 result)

/-- `CPU::asl`: read the operand, store it shifted left (byte-truncated),
update ZERO and NEGATIVE.  Note the source never touches CARRY here. -/
def asl (s : CPU) (mode : AddressingMode) : Option CPU := do
  let addr ← get_operand_address s mode
  let value ← mem_read s addr
  let result := (value <<< 1) % 256
  let s1 ← mem_write s addr result
  pure (update_zero_and_negative_flags s1 result)

/-- `CPU::lsr`: store the operand shifted right, update ZERO/NEGATIVE, then
set CARRY from bit 0 of the old value. -/
def lsr (s : CPU) (mode : AddressingMode) : Option CPU := do
  let addr ← get_operand_address s mode
  let value ← mem_read s addr
  let result := value >>> 1
  let s1 ← mem_write s addr result
  let s2 := update_zero_and_negative_flags s1 result
  pure <| if value &&& 1 = 1 then { s2 with status := insertFlag s2.status CARRY }
          else { s2 with status := removeFlag s2.status CARRY }

/-- `CPU::inx`. -/
def inx (s : CPU) : CPU := set_register_x s ((s.register_x + 1) % 256)

/-- `CPU::iny`. -/
def iny (s : CPU) : CPU := set_register_y s ((s.register_y + 1) % 256)

/-- `CPU::and`. -/
def and (s : CPU) (mode : AddressingMode) : Option CPU := do
  let addr ← get_operand_address s mode
  let v ← mem_read s addr
  pure (set_register_a s (s.register_a &&& v))

/-- `CPU::eor`. -/
def eor (s : CPU) (mode : AddressingMode) : Option CPU := do
  let addr ← get_operand_address s mode
  let v ← mem_read s addr
  pure (set_register_a s (s.register_a ^^^ v))

/-- `CPU::sta`. -/
def sta (s : CPU) (mode : AddressingMode) : Option CPU := do
  let addr ← get_operand_address s mode
  mem_write s addr s.register_a

/-- `CPU::jsr`: push `PC + 2 - 1`, then load PC from the operand. -/
def jsr (s : CPU) : Option CPU := do
  let s1 ← stack_push_u16 s ((s.program_counter + 2 - 1) % 65536)
  let target ← mem_read_u16 s1 s1.program_counter
  pure { s1 with program_counter := target }

/-- `CPU::jmp_indirect`: read the base from the operand; when its low byte
is `0xFF` fetch the high target byte from `base &&& 0xFF00` (the 6502
page-boundary quirk), otherwise a plain `mem_read_u16 base`. -/
def jmp_indirect (s : CPU) : Option CPU := do
  let addr ← mem_read_u16 s s.program_counter
  let indirect_ref ←
    if addr &&& 0x00FF == 0x00FF then do
      let lo ← mem_read s addr
      let hi ← mem_read s (addr &&& 0xFF00)
      pure ((hi <<< 8) ||| lo)
    else mem_read_u16 s addr
  pure { s with program_counter := indirect_ref }

/-- The static opcode list `CPU_OPS_CODES` from `src/opcodes.rs`,
transcribed entry for entry (including its idiosyncratic lengths for
`0xc1`/`0xd1`/`0xec`/`0xcc`). -/
def CPU_OPS_CODES : List OpCode := [
  ⟨0x00, "BRK", 1, 7, .NoneAddressing⟩,
  ⟨0xaa, "TAX", 1, 2, .NoneAddressing⟩,
  ⟨0xe8, "INX", 1, 2, .NoneAddressing⟩,
  ⟨0xc8, "INY", 1, 2, .NoneAddressing⟩,
  ⟨0xa9, "LDA", 2, 2, .Immediate⟩,
  ⟨0xa5, "LDA", 2, 3, .ZeroPage⟩,
  ⟨0xb5, "LDA", 2, 4, .ZeroPage_X⟩,
  ⟨0xad, "LDA", 3, 4, .Absolute⟩,
  ⟨0xbd, "LDA", 3, 4, .Absolute_X⟩,
  ⟨0xb9, "LDA", 3, 4, .Absolute_Y⟩,
  ⟨0xa1, "LDA", 2, 6, .Indirect_X⟩,
  ⟨0xb1, "LDA", 2, 5, .Indirect_Y⟩,
  ⟨0x85, "STA", 2, 3, .ZeroPage⟩,
  ⟨0x95, "STA", 2, 4, .ZeroPage_X⟩,
  ⟨0x8d, "STA", 3, 4, .Absolute⟩,
  ⟨0x9d, "STA", 3, 5, .Absolute_X⟩,
  ⟨0x99, "STA", 3, 5, .Absolute_Y⟩,
  ⟨0x81, "STA", 2, 6, .Indirect_X⟩,
  ⟨0x91, "STA", 2, 6, .Indirect_Y⟩,
  ⟨0x29, "AND", 2, 2, .Immediate⟩,
  ⟨0x25, "AND", 2, 3, .ZeroPage⟩,
  ⟨0x35, "AND", 2, 4, .ZeroPage_X⟩,
  ⟨0x2D, "AND", 3, 4, .Absolute⟩,
  ⟨0x3D, "AND", 3, 4, .Absolute_X⟩,
  ⟨0x39, "AND", 3, 4, .Absolute_Y⟩,
  ⟨0x21, "AND", 2, 6, .Indirect_X⟩,
  ⟨0x31, "AND", 2, 5, .Indirect_Y⟩,
  ⟨0x0A, "ASL", 1, 2, .NoneAddressing⟩,
  ⟨0x06, "ASL", 2, 5, .ZeroPage⟩,
  ⟨0x16, "ASL", 2, 6, .ZeroPage_X⟩,
  ⟨0x0E, "ASL", 3, 6, .Absolute⟩,
  ⟨0x1E, "ASL", 3, 7, .Absolute_X⟩,
  ⟨0x90, "BCC", 2, 2, .NoneAddressing⟩,
  ⟨0xb0, "BCS", 2, 2, .NoneAddressing⟩,
  ⟨0xf0, "BEQ", 2, 2, .NoneAddressing⟩,
  ⟨0xd0, "BNE", 2, 2, .NoneAddressing⟩,
  ⟨0x24, "BIT", 2, 3, .ZeroPage⟩,
  ⟨0x2C, "BIT", 3, 4, .Absolute⟩,
  ⟨0x30, "BMI", 2, 2, .NoneAddressing⟩,
  ⟨0x10, "BPL", 2, 2, .NoneAddressing⟩,
  ⟨0x50, "BVC", 2, 2, .NoneAddressing⟩,
  ⟨0x70, "BVS", 2, 2, .NoneAddressing⟩,
  ⟨0x18, "CLC", 1, 2, .NoneAddressing⟩,
  ⟨0xd8, "CLD", 1, 2, .NoneAddressing⟩,
  ⟨0x58, "CLI", 1, 2, .NoneAddressing⟩,
  ⟨0xb8, "CLV", 1, 2, .NoneAddressing⟩,
  ⟨0xc9, "CMP", 2, 2, .Immediate⟩,
  ⟨0xc5, "CMP", 2, 3, .ZeroPage⟩,
  ⟨0xd5, "CMP", 2, 4, .ZeroPage_X⟩,
  ⟨0xcd, "CMP", 3, 4, .Absolute⟩,
  ⟨0xdd, "CMP", 3, 4, .Absolute_X⟩,
  ⟨0xd9, "CMP", 3, 4, .Absolute_Y⟩,
  ⟨0xc1, "CMP", 3, 4, .Indirect_X⟩,
  ⟨0xd1, "CMP", 3, 4, .Indirect_Y⟩,
  ⟨0xe0, "CPX", 2, 2, .Immediate⟩,
  ⟨0xe4, "CPX", 2, 3, .ZeroPage⟩,
  ⟨0xec, "CPX", 2, 3, .Absolute⟩,
  ⟨0xc0, "CPY", 2, 2, .Immediate⟩,
  ⟨0xc4, "CPY", 2, 3, .ZeroPage⟩,
  ⟨0xcc, "CPY", 2, 3, .Absolute⟩,
  ⟨0xc6, "DEC", 2, 5, .ZeroPage⟩,
  ⟨0xd6, "DEC", 2, 6, .ZeroPage_X⟩,
  ⟨0xce, "DEC", 3, 6, .Absolute⟩,
  ⟨0xde, "DEC", 3, 7, .Absolute_X⟩,
  ⟨0xca, "DEX", 1, 2, .NoneAddressing⟩,
  ⟨0x88, "DEY", 1, 2, .NoneAddressing⟩,
  ⟨0x49, "EOR", 2, 2, .Immediate⟩,
  ⟨0x45, "EOR", 2, 3, .ZeroPage⟩,
  ⟨0x55, "EOR", 2, 4, .ZeroPage_X⟩,
  ⟨0x4D, "EOR", 3, 4, .Absolute⟩,
  ⟨0x5D, "EOR", 3, 4, .Absolute_X⟩,
  ⟨0x59, "EOR", 3, 4, .Absolute_Y⟩,
  ⟨0x41, "EOR", 2, 6, .Indirect_X⟩,
  ⟨0x51, "EOR", 2, 5, .Indirect_Y⟩,
  ⟨0xe6, "INC", 2, 5, .ZeroPage⟩,
  ⟨0xf6, "INC", 2, 6, .ZeroPage_X⟩,
  ⟨0xee, "INC", 3, 6, .Absolute⟩,
  ⟨0xfe, "INC", 3, 7, .Absolute_X⟩,
  ⟨0x4c, "JMP", 3, 3, .NoneAddressing⟩,
  ⟨0x6c, "JMP", 3, 5, .NoneAddressing⟩,
  ⟨0x20, "JSR", 3, 6, .NoneAddressing⟩]

/-- The `OPCODES_MAP` lookup (`opcodes.get(&code)`): the map is built by
inserting each list entry keyed by its code (codes are pairwise distinct in
the list, so this is the unique entry with that code). -/
def opcodes_map_get (c : Nat) : Option OpCode :=
  List.find? (fun op => op.code == c) CPU_OPS_CODES

/-- The opcode bytes that the `match` in `CPU::run` has a non-`todo!`
handler arm for, transcribed arm for arm from `src/cpu.rs`. -/
def dispatchHandled (c : Nat) : Bool :=
  c ∈ [0x00,
       0xa9, 0xa5, 0xb5, 0xad, 0xbd, 0xb9, 0xa1, 0xb1,
       0xA2, 0xA6, 0xB6, 0xAE, 0xBE,
       0xA0, 0xA4, 0xB4, 0xAC, 0xBC,
       0x85, 0x95, 0x8d, 0x9d, 0x99, 0x81, 0x91,
       0x0A, 0x06, 0x16, 0x0E, 0x1E,
       0x90, 0xB0, 0xF0, 0xD0,
       0x24, 0x2C,
       0x30, 0x10, 0x50, 0x70,
       0x18, 0xD8, 0x58, 0xB8,
       0xC9, 0xC5, 0xD5, 0xCD, 0xDD, 0xD9, 0xC1, 0xD1,
       0xE0, 0xE4, 0xEC,
       0xC0, 0xC4, 0xCC,
       0xc6, 0xd6, 0xce, 0xde,
       0xCA, 0x88,
       0x49, 0x45, 0x55, 0x4D, 0x5D, 0x59, 0x41, 0x51,
       0xE6, 0xF6, 0xEE, 0xFE,
       0x4C, 0x6C, 0x20,
       0xAA, 0xE8, 0xC8,
       0x4A, 0x46, 0x56, 0x4E, 0x5E,
       0x29, 0x25, 0x35, 0x2d, 0x3d, 0x39, 0x21, 0x31]

/-- The dispatch `match` of `CPU::run` for all non-`BRK` arms; the final
wildcard arm is `todo!()`, a panic (`none`). -/
def dispatch (code : Nat) (opcode : OpCode) (s : CPU) : Option CPU :=
  match code with
  | 0xa9 | 0xa5 | 0xb5 | 0xad | 0xbd | 0xb9 | 0xa1 | 0xb1 => lda s opcode.mode
  | 0xA2 | 0xA6 | 0xB6 | 0xAE | 0xBE => ldx s opcode.mode
  | 0xA0 | 0xA4 | 0xB4 | 0xAC | 0xBC => ldy s opcode.mode
  | 0x85 | 0x95 | 0x8d | 0x9d | 0x99 | 0x81 | 0x91 => sta s opcode.mode
  | 0x0A | 0x06 | 0x16 | 0x0E | 0x1E => asl s opcode.mode
  | 0x90 => bcc s opcode.mode
  | 0xB0 => bcs s opcode.mode
  | 0xF0 => beq s opcode.mode
  | 0xD0 => bne s opcode.mode
  | 0x24 | 0x2C => bit s opcode.mode
  | 0x30 => bmi s opcode.mode
  | 0x10 => bpl s opcode.mode
  | 0x50 => bvc s opcode.mode
  | 0x70 => bvs s opcode.mode
  | 0x18 => some { s with status := removeFlag s.status CARRY }
  | 0xD8 => some { s with status := removeFlag s.status DECIMAL_MODE }
  | 0x58 => some { s with status := removeFlag s.status INTERRUPT_DISABLE }
  | 0xB8 => some { s with status := removeFlag s.status OVERFLOW }
  | 0xC9 | 0xC5 | 0xD5 | 0xCD | 0xDD | 0xD9 | 0xC1 | 0xD1 => compare s opcode.mode s.register_a
  | 0xE0 | 0xE4 | 0xEC => compare s opcode.mode s.register_x
  | 0xC0 | 0xC4 | 0xCC => compare s opcode.mode s.register_y
  | 0xc6 | 0xd6 | 0xce | 0xde => dec s opcode.mode
  | 0xCA => some (decx s)
  | 0x88 => some (decy s)
  | 0x49 | 0x45 | 0x55 | 0x4D | 0x5D | 0x59 | 0x41 | 0x51 => eor s opcode.mode
  | 0xE6 | 0xF6 | 0xEE | 0xFE => inc s opcode.mode
  | 0x4C => do
      let t ← mem_read_u16 s s.program_counter
      pure { s with program_counter := t }
  | 0x6C => jmp_indirect s
  | 0x20 => jsr s
  | 0xAA => some (tax s)
  | 0xE8 => some (inx s)
  | 0xC8 => some (iny s)
  | 0x4A | 0x46 | 0x56 | 0x4E | 0x5E => lsr s opcode.mode
  | 0x29 | 0x25 | 0x35 | 0x2d | 0x3d | 0x39 | 0x21 | 0x31 => and s opcode.mode
  | _ => none

/-- Outcome of one iteration of `CPU::run`'s loop: either the `return` on
opcode `0x00`, or the next state. -/
inductive StepResult where
  | halt (s : CPU) : StepResult
  | next (s : CPU) : StepResult

/-- One iteration of the `loop` in `CPU::run`: fetch the opcode byte and
advance PC, look the byte up in the opcode map (`expect("opcode not
found")` panics on a miss), return on `0x00`, otherwise dispatch; when the
handler left PC untouched, advance it by `len - 1`. -/
def runStep (s0 : CPU) : Option StepResult := do
  let code ← mem_read s0 s0.program_counter
  let s : CPU := { s0 with program_counter := (s0.program_counter + 1) % 65536 }
  let opcode ← opcodes_map_get code
  if code = 0x00 then
    pure (StepResult.halt s)
  else do
    let s' ← dispatch code opcode s
    if s.program_counter = s'.program_counter then
      pure (StepResult.next
        { s' with program_counter := (s'.program_counter + (opcode.len - 1)) % 65536 })
    else
      pure (StepResult.next s')

/-- The eight branch opcodes with the flag each one tests and the flag
value (`true` = set) that makes the branch taken, from the dispatch arms
of `CPU::run` and the bodies of `bcc`…`bvs`. -/
def branchSpec : List (Nat × Nat × Bool) :=
  [(0x90, CARRY, false), (0xB0, CARRY, true),
   (0xF0, ZERO, true), (0xD0, ZERO, false),
   (0x30, NEGATIV, true), (0x10, NEGATIV, false),
   (0x50, OVERFLOW, false), (0x70, OVERFLOW, true)]

/-- The opcode bytes of LDX, LDY and LSR that the dispatch `match` in
`CPU::run` has arms for. -/
def ldxLdyLsrCodes : List Nat :=
  [0xA2, 0xA6, 0xB6, 0xAE, 0xBE,
   0xA0, 0xA4, 0xB4, 0xAC, 0xBC,
   0x4A, 0x46, 0x56, 0x4E, 0x5E]

/-- A plain post-reset-like state over zeroed memory, used to instantiate
universally quantified theorems at a concrete input. -/
def W0 : CPU := ⟨0, 0, 0, 0x24, 0x8000, 0xFD, fun _ => 0⟩

/-- Like `W0` but with the stack pointer at `0x00`, so a push wraps the
8-bit stack pointer. -/
def W1 : CPU := ⟨0, 0, 0, 0x24, 0x8000, 0x00, fun _ => 0⟩

/-- Memory for the JMP-indirect page-boundary scenario of the spec:
operand bytes `FF 30` at `0x8001/2`, and `0x30FF = 0x40`, `0x3000 = 0x80`,
`0x3100 = 0x50`. -/
def jmpMem : Nat → Nat := fun a =>
  if a = 0x8000 then 0x6C else if a = 0x8001 then 0xFF else if a = 0x8002 then 0x30
  else if a = 0x30FF then 0x40 else if a = 0x3000 then 0x80
  else if a = 0x3100 then 0x50 else 0

/-- State for the JMP-indirect scenario with PC already past the opcode
byte, pointing at the operand. -/
def jmpState : CPU := ⟨0, 0, 0, 0x24, 0x8001, 0xFD, jmpMem⟩

/-- Memory holding a BCC instruction (`90 02`) at `0x8000`. -/
def branchMem : Nat → Nat := fun a =>
  if a = 0x8000 then 0x90 else if a = 0x8001 then 0x02 else 0

/-- State about to execute the BCC at `0x8000`; status `0x24` has CARRY
clear, so the branch is taken. -/
def branchState : CPU := ⟨0, 0, 0, 0x24, 0x8000, 0xFD, branchMem⟩

/-- Memory holding an LDX-immediate instruction (`A2 01`) at `0x8000`. -/
def ldxMem : Nat → Nat := fun a =>
  if a = 0x8000 then 0xA2 else if a = 0x8001 then 0x01 else 0

/-- State about to execute the LDX immediate at `0x8000`. -/
def ldxState : CPU := ⟨0, 0, 0, 0x24, 0x8000, 0xFD, ldxMem⟩

/-- Memory for an ASL zero-page scenario: operand byte `0x10` at `0x8001`
and the cell `0x10 = 0x80` (bit 7 set). -/
def aslMem : Nat → Nat := fun a =>
  if a = 0x8001 then 0x10 else if a = 0x10 then 0x80 else 0

/-- State for the ASL scenario, PC pointing at the operand byte; CARRY is
clear in status `0x24`. -/
def aslState : CPU := ⟨0, 0, 0, 0x24, 0x8001, 0xFD, aslMem⟩

/-- Memory for the Indirect_X/Indirect_Y wrap scenario: operand byte
`0xFF` at `0x8001`, and zero-page cells `0xFF = 0x34`, `0x00 = 0x12`. -/
def indMem : Nat → Nat := fun a =>
  if a = 0x8001 then 0xFF else if a = 0xFF then 0x34 else if a = 0x00 then 0x12 else 0

/-- State for the indirect-wrap scenario: PC at the operand, X = Y = 0, so
the zero-page pointer is `0xFF` and its successor wraps to `0x00`. -/
def indState : CPU := ⟨0, 0, 0, 0x24, 0x8001, 0xFD, indMem⟩

/-- Memory with an operand value for a compare: operand byte `0x10` at
`0x8001` (a zero-page address) and the cell `0x10 = 0x30`. -/
def cmpMem : Nat → Nat := fun a =>
  if a = 0x8001 then 0x10 else if a = 0x10 then 0x30 else 0

/-- State for the compare scenario with A = 0x20 (less than the operand
0x30) and PC at the operand byte. -/
def cmpState : CPU := ⟨0x20, 0, 0, 0x24, 0x8001, 0xFD, cmpMem⟩

/-- Testing a single-bit flag with `contains` is testing that bit of the
packed byte. -/
theorem containsFlag_pow (st k : Nat) : containsFlag st (2 ^ k) = st.testBit k := by
  unfold containsFlag
  rw [Nat.and_two_pow]
  cases h : st.testBit k
  · simp only [Bool.toNat_false, Nat.zero_mul, beq_eq_false_iff_ne, ne_eq]
    exact (Nat.two_pow_pos k).ne
  · simp

/-- `insert` acts bitwise as disjunction. -/
theorem insertFlag_testBit (st f k : Nat) :
    (insertFlag st f).testBit k = (st.testBit k || f.testBit k) :=
  Nat.testBit_lor st f k

/-- `remove` acts bitwise as conjunction with the mask's byte complement. -/
theorem removeFlag_testBit (st f k : Nat) :
    (removeFlag st f).testBit k = (st.testBit k && (0xff ^^^ f).testBit k) :=
  Nat.testBit_land st (0xff ^^^ f) k

/-- `update_zero_and_negative_flags` leaves bit 0 (CARRY) unchanged. -/
theorem uznf_testBit_zero (s : CPU) (r : Nat) :
    (update_zero_and_negative_flags s r).status.testBit 0 = s.status.testBit 0 := by
  unfold update_zero_and_negative_flags
  split <;> split <;>
    simp only [insertFlag_testBit, removeFlag_testBit, ZERO, NEGATIV,
      show Nat.testBit 2 0 = false by decide,
      show Nat.testBit 128 0 = false by decide,
      show Nat.testBit (0xff ^^^ 2) 0 = true by decide,
      show Nat.testBit (0xff ^^^ 128) 0 = true by decide,
      Bool.or_false, Bool.and_true]

/-- `update_zero_and_negative_flags` leaves bit 6 (OVERFLOW) unchanged. -/
theorem uznf_testBit_six (s : CPU) (r : Nat) :
    (update_zero_and_negative_flags s r).status.testBit 6 = s.status.testBit 6 := by
  unfold update_zero_and_negative_flags
  split <;> split <;>
    simp only [insertFlag_testBit, removeFlag_testBit, ZERO, NEGATIV,
      show Nat.testBit 2 6 = false by decide,
      show Nat.testBit 128 6 = false by decide,
      show Nat.testBit (0xff ^^^ 2) 6 = true by decide,
      show Nat.testBit (0xff ^^^ 128) 6 = true by decide,
      Bool.or_false, Bool.and_true]

/-- `update_zero_and_negative_flags` sets bit 1 (ZERO) iff the result is
zero. -/
theorem uznf_testBit_one (s : CPU) (r : Nat) :
    (update_zero_and_negative_flags s r).status.testBit 1 = decide (r = 0) := by
  unfold update_zero_and_negative_flags
  split <;> split <;>
    simp only [insertFlag_testBit, removeFlag_testBit, ZERO, NEGATIV,
      show Nat.testBit 2 1 = true by decide,
      show Nat.testBit 128 1 = false by decide,
      show Nat.testBit (0xff ^^^ 2) 1 = false by decide,
      show Nat.testBit (0xff ^^^ 128) 1 = true by decide,
      Bool.or_false, Bool.or_true, Bool.and_true, Bool.and_false] <;>
    simp_all

/-- `update_zero_and_negative_flags` sets bit 7 (NEGATIVE) iff bit 7 of
the result is set. -/
theorem uznf_testBit_seven (s : CPU) (r : Nat) :
    (update_zero_and_negative_flags s r).status.testBit 7 = decide (r &&& 128 ≠ 0) := by
  unfold update_zero_and_negative_flags
  split <;> split <;>
    simp only [insertFlag_testBit, removeFlag_testBit, ZERO, NEGATIV,
      show Nat.testBit 2 7 = false by decide,
      show Nat.testBit 128 7 = true by decide,
      show Nat.testBit (0xff ^^^ 2) 7 = true by decide,
      show Nat.testBit (0xff ^^^ 128) 7 = false by decide,
      Bool.or_false, Bool.or_true, Bool.and_true, Bool.and_false] <;>
    simp_all

/-- Recombining a high byte shifted left with a low byte below 256 is
plain positional arithmetic. -/
theorem shiftLeft8_lor (a b : Nat) (hb : b < 256) : (a <<< 8) ||| b = a * 256 + b := by
  have h2 : (256 : Nat) = 2 ^ 8 := by norm_num
  calc (a <<< 8) ||| b = 2 ^ 8 * a ||| b := by rw [Nat.shiftLeft_eq, Nat.mul_comm]
    _ = 2 ^ 8 * a + b := (Nat.mul_add_lt_is_or (by omega) a).symm
    _ = a * 256 + b := by rw [Nat.mul_comm, h2]

/-- A successful `mem_read` pins its address below the array length. -/
theorem mem_read_lt {s : CPU} {a x : Nat} (h : mem_read s a = some x) : a < MEM_SIZE := by
  by_contra hcon
  unfold mem_read at h
  rw [if_neg hcon] at h
  exact Option.noConfusion h

/-- Masking with `0x00FF` is reduction mod 256. -/
theorem and255_eq_mod (x : Nat) : x &&& 0x00FF = x % 256 := by
  have := Nat.and_pow_two_sub_one_eq_mod x 8
  norm_num at this
  exact this

/-- Inverting a successful `mem_read`: the address is in bounds and the
value is the stored byte. -/
theorem mem_read_some {s : CPU} {a x : Nat} (h : mem_read s a = some x) :
    a < MEM_SIZE ∧ x = s.memory a % 256 ∧ x < 256 := by
  unfold mem_read at h
  split at h
  · next hlt =>
    cases h
    exact ⟨hlt, rfl, Nat.mod_lt _ (by norm_num)⟩
  · exact absurd h (by simp)

/-- CARRY is bit 0 of the packed status byte. -/
theorem containsFlag_CARRY (st : Nat) : containsFlag st CARRY = st.testBit 0 :=
  containsFlag_pow st 0

/-- ZERO is bit 1 of the packed status byte. -/
theorem containsFlag_ZERO (st : Nat) : containsFlag st ZERO = st.testBit 1 :=
  containsFlag_pow st 1

/-- OVERFLOW is bit 6 of the packed status byte. -/
theorem containsFlag_OVERFLOW (st : Nat) : containsFlag st OVERFLOW = st.testBit 6 :=
  containsFlag_pow st 6

/-- NEGATIVE is bit 7 of the packed status byte. -/
theorem containsFlag_NEGATIV (st : Nat) : containsFlag st NEGATIV = st.testBit 7 :=
  containsFlag_pow st 7

/-- The source's `result & 0b1000_0000 != 0` test is the bit-7 test. -/
theorem and128_ne_zero (x : Nat) : decide (x &&& 128 ≠ 0) = x.testBit 7 := by
  have h := Nat.and_two_pow x 7
  norm_num at h
  rw [h]
  cases hx : x.testBit 7 <;> simp

/-- `update_zero_and_negative_flags` only rewrites the status byte. -/
theorem uznf_fields (t : CPU) (res : Nat) :
    (update_zero_and_negative_flags t res).register_a = t.register_a ∧
    (update_zero_and_negative_flags t res).register_x = t.register_x ∧
    (update_zero_and_negative_flags t res).register_y = t.register_y ∧
    (update_zero_and_negative_flags t res).stack_pointer = t.stack_pointer ∧
    (update_zero_and_negative_flags t res).program_counter = t.program_counter ∧
    (update_zero_and_negative_flags t res).memory = t.memory :=
  ⟨rfl, rfl, rfl, rfl, rfl, rfl⟩

/-- Claim C1: executing JMP indirect (opcode 0x6C), when the two operand
bytes form a base whose low byte is 0xFF, loads PC with low byte
`read(base)` and high byte `read(base &&& 0xFF00)` — not `read(base+1)`;
for a base whose low byte is not 0xFF, PC is `read_u16(base)`.  The
witness runs the spec's concrete scenario (`memory[0x30FF]=0x40`,
`memory[0x3000]=0x80`, `JMP ($30FF)` gives PC = 0x8040). -/
theorem jmp_indirect_page_bug (s : CPU) (base : Nat)
    (hb : mem_read_u16 s s.program_counter = some base) :
    (base % 256 = 0xFF →
      ∀ lo hi, mem_read s base = some lo → mem_read s (base &&& 0xFF00) = some hi →
        jmp_indirect s = some { s with program_counter := (hi <<< 8) ||| lo }) ∧
    (base % 256 ≠ 0xFF →
      ∀ t, mem_read_u16 s base = some t →
        jmp_indirect s = some { s with program_counter := t }) := by
  constructor
  · intro hff lo hi hlo hhi
    simp [jmp_indirect, hb, and255_eq_mod, hff, hlo, hhi]
  · intro hff t ht
    simp [jmp_indirect, hb, and255_eq_mod, hff, ht]

/-- Witness for C1: the spec's page-boundary scenario ends with
PC = 0x8040, the high byte taken from 0x3000 and not 0x3100. -/
theorem jmp_indirect_page_bug_witness :
    jmp_indirect jmpState = some { jmpState with program_counter := 0x8040 } := by
  have h := (jmp_indirect_page_bug jmpState 0x30FF rfl).1 (by decide) 0x40 0x80 rfl rfl
  exact h

/-- Claim C2 (refuted taken-branch half): for each of the eight branch
opcodes, a fetch of the opcode byte followed by the dispatch either
panics — when the tested flag makes the branch taken, because the branch
handler resolves its operand with `NoneAddressing` — or, when the branch
is not taken, merely advances PC past the 2-byte instruction.  The code
never reads the offset byte nor computes `PC + offset`. -/
theorem branch_taken_panics (s : CPU) (c f : Nat) (pol : Bool)
    (hb : (c, f, pol) ∈ branchSpec)
    (hfetch : mem_read s s.program_counter = some c) :
    (containsFlag s.status f = pol → runStep s = none) ∧
    (containsFlag s.status f = (!pol) →
      runStep s = some (.next { s with program_counter := (s.program_counter + 2) % 65536 })) := by
  have h90 : opcodes_map_get 0x90 = some ⟨0x90, "BCC", 2, 2, .NoneAddressing⟩ := rfl
  have hB0 : opcodes_map_get 0xB0 = some ⟨0xb0, "BCS", 2, 2, .NoneAddressing⟩ := rfl
  have hF0 : opcodes_map_get 0xF0 = some ⟨0xf0, "BEQ", 2, 2, .NoneAddressing⟩ := rfl
  have hD0 : opcodes_map_get 0xD0 = some ⟨0xd0, "BNE", 2, 2, .NoneAddressing⟩ := rfl
  have h30 : opcodes_map_get 0x30 = some ⟨0x30, "BMI", 2, 2, .NoneAddressing⟩ := rfl
  have h10 : opcodes_map_get 0x10 = some ⟨0x10, "BPL", 2, 2, .NoneAddressing⟩ := rfl
  have h50 : opcodes_map_get 0x50 = some ⟨0x50, "BVC", 2, 2, .NoneAddressing⟩ := rfl
  have h70 : opcodes_map_get 0x70 = some ⟨0x70, "BVS", 2, 2, .NoneAddressing⟩ := rfl
  have d90 : ∀ (op : OpCode) (t : CPU), dispatch 0x90 op t = bcc t op.mode := fun _ _ => rfl
  have dB0 : ∀ (op : OpCode) (t : CPU), dispatch 0xB0 op t = bcs t op.mode := fun _ _ => rfl
  have dF0 : ∀ (op : OpCode) (t : CPU), dispatch 0xF0 op t = beq t op.mode := fun _ _ => rfl
  have dD0 : ∀ (op : OpCode) (t : CPU), dispatch 0xD0 op t = bne t op.mode := fun _ _ => rfl
  have d30 : ∀ (op : OpCode) (t : CPU), dispatch 0x30 op t = bmi t op.mode := fun _ _ => rfl
  have d10 : ∀ (op : OpCode) (t : CPU), dispatch 0x10 op t = bpl t op.mode := fun _ _ => rfl
  have d50 : ∀ (op : OpCode) (t : CPU), dispatch 0x50 op t = bvc t op.mode := fun _ _ => rfl
  have d70 : ∀ (op : OpCode) (t : CPU), dispatch 0x70 op t = bvs t op.mode := fun _ _ => rfl
  have hpc : ((s.program_counter + 1) % 65536 + 1) % 65536 = (s.program_counter + 2) % 65536 := by
    omega
  simp only [branchSpec, List.mem_cons, List.not_mem_nil, or_false, Prod.mk.injEq] at hb
  obtain hcase | hcase | hcase | hcase | hcase | hcase | hcase | hcase := hb <;>
    obtain ⟨rfl, rfl, rfl⟩ := hcase <;>
    refine ⟨fun hcond => ?_, fun hcond => ?_⟩ <;>
    simp [runStep, hfetch, h90, hB0, hF0, hD0, h30, h10, h50, h70,
      d90, dB0, dF0, dD0, d30, d10, d50, d70,
      bcc, bcs, beq, bne, bmi, bpl, bvc, bvs, get_operand_address, hcond, hpc]

/-- Witness for C2: a BCC at 0x8000 with CARRY clear (a taken branch)
makes the run-loop iteration panic. -/
theorem branch_taken_panics_witness :
    runStep branchState = none :=
  (branch_taken_panics branchState 0x90 CARRY false (by decide) rfl).1 (by decide)

/-- Claim C3 (refuted for LDX/LDY/LSR): every LDX, LDY and LSR opcode byte
has a dispatch arm in `CPU::run`, yet none of them has an entry in
`CPU_OPS_CODES`, so the opcode-map lookup fails and the loop iteration
panics (`expect("opcode not found")`) before reaching the handler. -/
theorem opcode_table_missing_ldx_ldy_lsr :
    (∀ c ∈ ldxLdyLsrCodes, dispatchHandled c = true ∧ opcodes_map_get c = none) ∧
    (∀ (s : CPU) (c : Nat), c ∈ ldxLdyLsrCodes →
      mem_read s s.program_counter = some c → runStep s = none) := by
  constructor
  · decide
  · intro s c hc hf
    fin_cases hc <;>
      simp [runStep, hf,
        show opcodes_map_get 0xA2 = none from rfl, show opcodes_map_get 0xA6 = none from rfl,
        show opcodes_map_get 0xB6 = none from rfl, show opcodes_map_get 0xAE = none from rfl,
        show opcodes_map_get 0xBE = none from rfl, show opcodes_map_get 0xA0 = none from rfl,
        show opcodes_map_get 0xA4 = none from rfl, show opcodes_map_get 0xB4 = none from rfl,
        show opcodes_map_get 0xAC = none from rfl, show opcodes_map_get 0xBC = none from rfl,
        show opcodes_map_get 0x4A = none from rfl, show opcodes_map_get 0x46 = none from rfl,
        show opcodes_map_get 0x56 = none from rfl, show opcodes_map_get 0x4E = none from rfl,
        show opcodes_map_get 0x5E = none from rfl]

/-- Witness for C3: executing the LDX-immediate opcode 0xA2 panics at the
table lookup. -/
theorem opcode_table_missing_ldx_ldy_lsr_witness :
    runStep ldxState = none :=
  opcode_table_missing_ldx_ldy_lsr.2 ldxState 0xA2 (by decide) rfl

/-- Claim C4 (refuted CARRY half): ASL on a memory operand stores the
left-shifted byte and updates ZERO and NEGATIVE from it, but leaves CARRY
exactly as it was — the source never copies bit 7 into CARRY. -/
theorem asl_memory_semantics (s : CPU) (mode : AddressingMode)
    (hmode : mode ∈ [AddressingMode.ZeroPage, .ZeroPage_X, .Absolute, .Absolute_X])
    (addr v : Nat)
    (ha : get_operand_address s mode = some addr)
    (hv : mem_read s addr = some v) :
    ∃ s', asl s mode = some s' ∧
      mem_read s' addr = some ((v <<< 1) % 256) ∧
      containsFlag s'.status CARRY = containsFlag s.status CARRY ∧
      containsFlag s'.status ZERO = decide ((v <<< 1) % 256 = 0) ∧
      containsFlag s'.status NEGATIV = ((v <<< 1) % 256).testBit 7 := by
  obtain ⟨halt, hvv, hv256⟩ := mem_read_some hv
  have hw : asl s mode
      = some (update_zero_and_negative_flags
          { s with memory := fun a => if a = addr then ((v <<< 1) % 256) % 256 else s.memory a }
          ((v <<< 1) % 256)) := by
    simp [asl, ha, hv, mem_write, halt]
  refine ⟨_, hw, ?_, ?_, ?_, ?_⟩
  · simp [mem_read, halt, update_zero_and_negative_flags]
  · rw [containsFlag_CARRY, containsFlag_CARRY, uznf_testBit_zero]
  · rw [containsFlag_ZERO, uznf_testBit_one]
  · rw [containsFlag_NEGATIV, uznf_testBit_seven, and128_ne_zero]

/-- Witness for C4: `ASL $10` over `memory[0x10] = 0x80` stores 0x00 and
leaves CARRY exactly as it started (clear), although bit 7 of the operand
was set. -/
theorem asl_memory_semantics_witness :
    ∃ s', asl aslState .ZeroPage = some s' ∧
      mem_read s' 0x10 = some 0x00 ∧
      containsFlag s'.status CARRY = containsFlag aslState.status CARRY ∧
      containsFlag s'.status ZERO = decide ((0x80 <<< 1) % 256 = 0) ∧
      containsFlag s'.status NEGATIV = (((0x80 : Nat) <<< 1) % 256).testBit 7 := by
  have h := asl_memory_semantics aslState .ZeroPage (by decide) 0x10 0x80 rfl rfl
  exact h

/-- Claim C5: the memory array has length 0xFFFF, so reads and writes at
address 0xFFFF fall off the end and crash, while every address up to
0xFFFE succeeds. -/
theorem mem_array_off_by_one (s : CPU) (v : Nat) :
    mem_read s 0xFFFF = none ∧ mem_write s 0xFFFF v = none ∧
    (∀ a, a ≤ 0xFFFE → (mem_read s a).isSome ∧ (mem_write s a v).isSome) := by
  refine ⟨?_, ?_, fun a ha => ⟨?_, ?_⟩⟩ <;>
    simp [mem_read, mem_write, MEM_SIZE] <;> omega

/-- Witness for C5: the in-bounds half at the top in-bounds address. -/
theorem mem_array_off_by_one_witness :
    (mem_read W0 0xFFFE).isSome ∧ (mem_write W0 0xFFFE 0).isSome :=
  (mem_array_off_by_one W0 0).2.2 0xFFFE (by decide)

/-- Claim C6: `stack_push_u16 v` followed by `stack_pop_u16` returns
exactly `v` and restores the stack pointer, for every state with a byte
stack pointer and every 16-bit `v`, including when SP wraps at the 8-bit
boundary. -/
theorem stack_push_pop_u16_roundtrip (s : CPU) (v : Nat)
    (hsp : s.stack_pointer < 256) (hv : v < 65536) :
    Option.map (fun p => (p.1, p.2.stack_pointer)) ((stack_push_u16 s v).bind stack_pop_u16)
      = some (v, s.stack_pointer) := by
  have ha1 : STACK_END + s.stack_pointer < MEM_SIZE := by
    unfold STACK_END MEM_SIZE
    omega
  have ha2 : STACK_END + (s.stack_pointer + 255) % 256 < MEM_SIZE := by
    unfold STACK_END MEM_SIZE
    omega
  have f1 : (s.stack_pointer + 255 + 255 + 1) % 256 = (s.stack_pointer + 255) % 256 := by
    omega
  have f2 : (s.stack_pointer + 255 + 1) % 256 = s.stack_pointer := by omega
  have hne : STACK_END + s.stack_pointer ≠ STACK_END + (s.stack_pointer + 255) % 256 := by
    unfold STACK_END
    omega
  have hval : ((v >>> 8) % 256) <<< 8 ||| v % 256 = v := by
    have hd : v >>> 8 = v / 256 := by
      rw [Nat.shiftRight_eq_div_pow]
    rw [shiftLeft8_lor _ _ (Nat.mod_lt _ (by norm_num))]
    rw [hd]
    omega
  simp [stack_push_u16, stack_push, stack_pop_u16, stack_pop, mem_write, mem_read,
    ha1, ha2, f1, f2, hne, hval]

/-- Witness for C6: the round trip at SP = 0x00, where the pushes wrap the
stack pointer through 0xFF. -/
theorem stack_push_pop_u16_roundtrip_witness :
    Option.map (fun p => (p.1, p.2.stack_pointer)) ((stack_push_u16 W1 0xABCD).bind stack_pop_u16)
      = some (0xABCD, W1.stack_pointer) :=
  stack_push_pop_u16_roundtrip W1 0xABCD (by decide) (by decide)

/-- Claim C7: Indirect_X reads its pointer and the pointer's successor in
the zero page — the successor address is `(ptr + 1) mod 256`, so a pointer
of 0xFF takes its high byte from 0x00, not 0x100 — and Indirect_Y wraps
its high pointer byte the same way (`(base + 1) mod 256`). -/
theorem indirect_zero_page_wrap (s : CPU) (base : Nat)
    (hpc : mem_read s s.program_counter = some base) :
    (∃ lo hi, mem_read s ((base + s.register_x) % 256) = some lo ∧
       mem_read s (((base + s.register_x) % 256 + 1) % 256) = some hi ∧
       get_operand_address s .Indirect_X = some ((hi <<< 8) ||| lo)) ∧
    ((base + s.register_x) % 256 = 0xFF →
       get_operand_address s .Indirect_X
         = some (((s.memory 0x00 % 256) <<< 8) ||| (s.memory 0xFF % 256))) ∧
    (∃ lo hi, mem_read s base = some lo ∧ mem_read s ((base + 1) % 256) = some hi ∧
       get_operand_address s .Indirect_Y = some ((((hi <<< 8) ||| lo) + s.register_y) % 65536)) := by
  obtain ⟨hpclt, hbase, hb256⟩ := mem_read_some hpc
  have hz : ∀ a : Nat, a % 256 < MEM_SIZE := by
    intro a
    have := Nat.mod_lt a (show 0 < 256 by norm_num)
    unfold MEM_SIZE
    omega
  have hr : ∀ a : Nat, a < MEM_SIZE → mem_read s a = some (s.memory a % 256) := by
    intro a ha
    simp [mem_read, ha]
  have hblt : base < MEM_SIZE := by unfold MEM_SIZE; omega
  refine ⟨⟨_, _, hr _ (hz _), hr _ (hz _), ?_⟩, ?_, ⟨_, _, hr _ hblt, hr _ (hz _), ?_⟩⟩
  · simp [get_operand_address, hpc, hr _ (hz ((base + s.register_x))),
      hr _ (hz ((base + s.register_x) % 256 + 1)), hr _ (hz (base + s.register_x + 1))]
  · intro hff
    have h0 : (base + s.register_x + 1) % 256 = 0 := by omega
    simp [get_operand_address, hpc, hff, h0, hr _ (hz ((base + s.register_x))),
      hr 0xFF (by unfold MEM_SIZE; norm_num), hr 0 (by unfold MEM_SIZE; norm_num)]
  · simp [get_operand_address, hpc, hr _ hblt, hr _ (hz (base + 1))]

/-- Witness for C7: with operand 0xFF and X = 0 the pointer is 0xFF, the
high byte comes from 0x00, and the resolved address is 0x1234. -/
theorem indirect_zero_page_wrap_witness :
    get_operand_address indState .Indirect_X = some 0x1234 := by
  have h := (indirect_zero_page_wrap indState 0xFF rfl).2.1 (by decide)
  exact h

/-- Claim C8: a compare with register value `r` and operand value `m`
sets CARRY iff `r ≥ m` unsigned, ZERO iff `r = m`, NEGATIVE from bit 7 of
the byte-wrapped difference, and leaves A, X, Y, SP, PC and all memory
unchanged. -/
theorem compare_spec (s : CPU) (mode : AddressingMode) (r addr m : Nat)
    (hr : r < 256)
    (ha : get_operand_address s mode = some addr)
    (hm : mem_read s addr = some m) :
    ∃ s', compare s mode r = some s' ∧
      containsFlag s'.status CARRY = decide (m ≤ r) ∧
      containsFlag s'.status ZERO = decide (r = m) ∧
      containsFlag s'.status NEGATIV = ((r + 256 - m) % 256).testBit 7 ∧
      s'.register_a = s.register_a ∧ s'.register_x = s.register_x ∧
      s'.register_y = s.register_y ∧ s'.stack_pointer = s.stack_pointer ∧
      s'.program_counter = s.program_counter ∧ s'.memory = s.memory := by
  obtain ⟨halt, hmv, hm256⟩ := mem_read_some hm
  have hc : compare s mode r
      = some (update_zero_and_negative_flags
          (if m ≤ r then { s with status := insertFlag s.status CARRY }
           else { s with status := removeFlag s.status CARRY })
          ((r + 256 - m) % 256)) := by
    simp [compare, ha, hm]
  refine ⟨_, hc, ?_, ?_, ?_, ?_, ?_, ?_, ?_, ?_, ?_⟩
  · rw [containsFlag_CARRY, uznf_testBit_zero]
    split
    · next hle =>
      simp only [insertFlag_testBit, show Nat.testBit CARRY 0 = true by decide, Bool.or_true]
      exact (decide_eq_true hle).symm
    · next hnle =>
      simp only [removeFlag_testBit, show Nat.testBit (0xff ^^^ CARRY) 0 = false by decide,
        Bool.and_false]
      exact (decide_eq_false hnle).symm
  · rw [containsFlag_ZERO, uznf_testBit_one]
    rw [decide_eq_decide]
    omega
  · rw [containsFlag_NEGATIV, uznf_testBit_seven, and128_ne_zero]
  · exact (uznf_fields _ _).1.trans (by split <;> rfl)
  · exact (uznf_fields _ _).2.1.trans (by split <;> rfl)
  · exact (uznf_fields _ _).2.2.1.trans (by split <;> rfl)
  · exact (uznf_fields _ _).2.2.2.1.trans (by split <;> rfl)
  · exact (uznf_fields _ _).2.2.2.2.1.trans (by split <;> rfl)
  · exact (uznf_fields _ _).2.2.2.2.2.trans (by split <;> rfl)

/-- Witness for C8: comparing A = 0x20 against the operand 0x30 through
the zero-page mode clears CARRY and ZERO, sets NEGATIVE from 0xF0, and
changes no register or memory cell. -/
theorem compare_spec_witness :
    ∃ s', compare cmpState .ZeroPage 0x20 = some s' ∧
      containsFlag s'.status CARRY = decide ((0x30 : Nat) ≤ 0x20) ∧
      containsFlag s'.status ZERO = decide ((0x20 : Nat) = 0x30) ∧
      containsFlag s'.status NEGATIV = (((0x20 : Nat) + 256 - 0x30) % 256).testBit 7 ∧
      s'.register_a = cmpState.register_a ∧ s'.register_x = cmpState.register_x ∧
      s'.register_y = cmpState.register_y ∧ s'.stack_pointer = cmpState.stack_pointer ∧
      s'.program_counter = cmpState.program_counter ∧ s'.memory = cmpState.memory :=
  compare_spec cmpState .ZeroPage 0x20 0x10 0x30 (by decide) rfl rfl

/-- Claim C9: `reset` zeroes A, X and Y, sets the status byte to
0b00100100 and SP to 0xFD, loads PC from the little-endian reset vector at
0xFFFC/0xFFFD, and modifies no memory cell. -/
theorem reset_spec (s : CPU) :
    ∃ s', reset s = some s' ∧ s'.register_a = 0 ∧ s'.register_x = 0 ∧ s'.register_y = 0 ∧
      s'.status = 0b00100100 ∧ s'.stack_pointer = 0xFD ∧
      mem_read_u16 s 0xFFFC = some s'.program_counter ∧ s'.memory = s.memory := by
  have h1 : mem_read s 0xFFFC = some (s.memory 0xFFFC % 256) := by
    simp [mem_read, MEM_SIZE]
  have h2 : mem_read s 0xFFFD = some (s.memory 0xFFFD % 256) := by
    simp [mem_read, MEM_SIZE]
  have hu : mem_read_u16 s 0xFFFC
      = some (((s.memory 0xFFFD % 256) <<< 8) ||| (s.memory 0xFFFC % 256)) := by
    simp [mem_read_u16, h1, h2]
  refine ⟨{ s with register_a := 0, register_x := 0, register_y := 0, status := from_bits_truncate 0b100100, program_counter := ((s.memory 0xFFFD % 256) <<< 8) ||| (s.memory 0xFFFC % 256), stack_pointer := STACK_RESET }, ?_, rfl, rfl, rfl, ?_, rfl, ?_, rfl⟩
  · simp [reset, hu]
  · simp [from_bits_truncate]
  · exact hu

/-- Claim C10: `load` copies the program to 0x8000 and plants the reset
vector when the program fits in the 0xFFFF-byte array (length at most
0x7FFF); one byte more and the slice copy falls out of bounds and
crashes. -/
theorem load_bounds (s : CPU) (p : List Nat) :
    (p.length ≤ 0x7FFF →
      (∀ i, i < p.length → 0x8000 + i ≠ 0xFFFC → 0x8000 + i ≠ 0xFFFD →
        (load s p).bind (fun s' => mem_read s' (0x8000 + i)) = some (p.getD i 0 % 256)) ∧
      (load s p).bind (fun s' => mem_read s' 0xFFFC) = some 0x00 ∧
      (load s p).bind (fun s' => mem_read s' 0xFFFD) = some 0x80) ∧
    (0x7FFF < p.length → load s p = none) := by
  constructor
  · intro hlen
    have hg : 0x8000 + p.length ≤ 0xffff := by omega
    refine ⟨fun i hi h1 h2 => ?_, ?_, ?_⟩
    · have hc1 : (0x8000 : Nat) ≤ 0x8000 + i := by omega
      have hc2 : 0x8000 + i < 0x8000 + p.length := by omega
      have hsub : 0x8000 + i - 0x8000 = i := by omega
      have hlt : 0x8000 + i < 0xffff := by omega
      simp [load, MEM_SIZE, hg, mem_write_u16, mem_write, mem_read, hc1, hc2, hsub, hlt, h1, h2]
    · simp [load, MEM_SIZE, hg, mem_write_u16, mem_write, mem_read]
    · simp [load, MEM_SIZE, hg, mem_write_u16, mem_write, mem_read]
  · intro hlen
    have hg : ¬(0x8000 + p.length ≤ 0xffff) := by omega
    simp [load, MEM_SIZE, hg]

/-- Witness for C10: a three-byte program loads (first byte readable at
0x8000, vector planted), and a 0x8000-byte program crashes the copy. -/
theorem load_bounds_witness :
    ((load W0 [0xA9, 0x05, 0x00]).bind (fun s' => mem_read s' 0x8000) = some 0xA9 ∧
     (load W0 [0xA9, 0x05, 0x00]).bind (fun s' => mem_read s' 0xFFFC) = some 0x00 ∧
     (load W0 [0xA9, 0x05, 0x00]).bind (fun s' => mem_read s' 0xFFFD) = some 0x80) ∧
    load W0 (List.replicate 0x8000 0) = none := by
  have h1 := (load_bounds W0 [0xA9, 0x05, 0x00]).1 (by decide)
  have h2 := (load_bounds W0 (List.replicate 0x8000 0)).2
    (by rw [List.length_replicate]; norm_num)
  have ha := h1.1 0 (by decide) (by decide) (by decide)
  exact ⟨⟨by simpa using ha, h1.2.1, h1.2.2⟩, h2⟩

end NesEmu
